import Mathlib

/-!
Verification of the "life admin concierge" demo agent.

Shallow embedding of the Python modules of the repository:
  * `src/data/eisenhower.py`   — `EisenhowerMatrix.categorize_task`
  * `src/agents/router.py`     — `RouterAgent.classify_intent`
  * `src/tools/gmail_tool.py`  — `create_gmail_draft`
  * `src/tools/calendar_tool.py` — `create_calendar_event`
  * `src/session/memory.py`    — `InMemorySession`, `SessionManager`

Modelling conventions:
  * Python strings are Lean `String`; substring containment (`kw in s`)
    is `hasSub` over the character lists.
  * Wall-clock timestamps (`datetime.now()`) are an explicit parameter of
    each operation, modelled as a rational number (minutes for the session
    module, hours for the calendar module); `timedelta(minutes=m)` /
    `timedelta(hours=h)` become addition of the rational.
  * `datetime.fromisoformat` is a Python standard-library call, so it is a
    parameter `parseIso : List Char → Except String ℚ` of the calendar
    tool (an exception with message `e` is `.error e`); the call in the source to
    `start_time.replace(Z, +00:00)` is embedded as `replaceZ`.
  * Python dict results are Lean structures; keys absent from a given
    return path are `none`-valued `Option` fields.
  * Float confidence arithmetic is modelled over `ℚ` (the values the
    claims mention, such as 0.5, are exact in both).
-/

/-- Python ASCII lowercasing of one character (`str.lower` on the ASCII
range; all router keywords are ASCII). -/
def lowerCh (c : Char) : Char :=
  if 'A' ≤ c ∧ c ≤ 'Z' then Char.ofNat (c.toNat + 32) else c

/-- Python `s.lower()` character by character. -/
def lowerStr (s : List Char) : List Char := s.map lowerCh

/-- Does `pat` occur at the head of `s`? -/
def leadEq : List Char → List Char → Bool
  | [], _ => true
  | _ :: _, [] => false
  | a :: as, b :: bs => a == b && leadEq as bs

/-- Python substring containment `pat in s`. -/
def hasSub (pat : List Char) : List Char → Bool
  | [] => pat.isEmpty
  | c :: rest => leadEq pat (c :: rest) || hasSub pat rest

/-! ## `src/data/eisenhower.py` -/

/-- The four quadrant buckets of `EisenhowerMatrix.__init__`
(`self.quadrants`, a dict of four lists). -/
structure EisenhowerMatrix where
  q1_do_first : List String
  q2_schedule : List String
  q3_delegate : List String
  q4_eliminate : List String
deriving DecidableEq

/-- Fresh matrix: all four buckets empty. -/
def EisenhowerMatrix.empty : EisenhowerMatrix := ⟨[], [], [], []⟩

/-- `EisenhowerMatrix.categorize_task` (eisenhower.py lines 79–101):
picks the quadrant label from the two booleans, appends the task to that
bucket, and returns the label (here together with the updated matrix,
making the mutation of `self.quadrants` explicit). -/
def categorize_task (m : EisenhowerMatrix) (task : String)
    (urgent important : Bool) : String × EisenhowerMatrix :=
  if urgent && important then
    ("Q1_do_first", { m with q1_do_first := m.q1_do_first ++ [task] })
  else if important && !urgent then
    ("Q2_schedule", { m with q2_schedule := m.q2_schedule ++ [task] })
  else if urgent && !important then
    ("Q3_delegate", { m with q3_delegate := m.q3_delegate ++ [task] })
  else
    ("Q4_eliminate", { m with q4_eliminate := m.q4_eliminate ++ [task] })

/-! ## `src/agents/router.py` -/

/-- `routes["admin_agent"]["keywords"]` from `RouterAgent.__init__`. -/
def adminKeywords : List String :=
  ["calendar", "event", "schedule", "remind", "reminder",
   "appointment", "meeting", "book", "email", "draft",
   "mail", "send", "renew", "renewal", "deadline"]

/-- `routes["productivity_agent"]["keywords"]`. -/
def productivityKeywords : List String :=
  ["task", "priority", "prioritize", "eisenhower", "matrix",
   "energy", "todo", "to-do", "schedule", "time block",
   "productive", "focus", "plan", "daily", "routine"]

/-- `routes["profile_agent"]["keywords"]`. -/
def profileKeywords : List String :=
  ["license", "passport", "insurance", "policy", "number",
   "address", "phone", "email", "contact", "ssn", "id",
   "document", "info", "information", "profile", "what\x27s my",
   "what is my", "do i have"]

/-- The `self.routes` dict in insertion order (agent name, keyword list). -/
def routes : List (String × List String) :=
  [("admin_agent", adminKeywords),
   ("productivity_agent", productivityKeywords),
   ("profile_agent", profileKeywords)]

/-- `sum(len(kw) for kw in keywords if kw in query_lower)` — the weighted
score of one agent for a query. -/
def kwScore (q : String) (kws : List String) : Nat :=
  ((kws.filter (fun kw => hasSub kw.toList (lowerStr q.toList))).map
    String.length).sum

/-- `min(max_score / max(len(query_lower), 1) * 10, 1.0)`. -/
def confidence (score qlen : Nat) : ℚ :=
  min ((score : ℚ) / (max qlen 1 : ℚ) * 10) 1

/-- Python `max(scores, key=scores.get)` over an insertion-ordered dict:
the FIRST entry attaining the maximal value wins (later entries replace
the current best only when strictly greater). -/
def pyMax (first : String × Nat) (rest : List (String × Nat)) : String × Nat :=
  rest.foldl (fun best p => if best.2 < p.2 then p else best) first

/-- `RouterAgent.classify_intent` (router.py lines 55–88): lowercase the
query, score each agent by the total length of its keywords occurring as
substrings, return the best agent with its confidence when the best score
is positive, else the `general_agent` fallback with confidence 0.5. -/
def classify_intent (q : String) : String × ℚ :=
  let ql := lowerStr q.toList
  let scores := routes.map (fun r => (r.1, kwScore q r.2))
  match scores with
  | [] => ("general_agent", 1/2)
  | s0 :: srest =>
    let best := pyMax s0 srest
    if 0 < best.2 then (best.1, confidence best.2 ql.length)
    else ("general_agent", 1/2)

example : (classify_intent "calendar").1 = "admin_agent" := by decide
example : (classify_intent "calendar task priority").1 = "productivity_agent" := by
  decide
example : classify_intent "xyzq" = ("general_agent", 1/2) := by
  simp [classify_intent, routes, kwScore, adminKeywords, productivityKeywords,
    profileKeywords, pyMax]
  decide

/-- Case characterization of `classify_intent` by the three per-agent
scores: the first agent (in dict insertion order) attaining the maximal
score wins when that score is positive; otherwise the fallback. -/
theorem classify_intent_cases (q : String) :
    classify_intent q =
      (if kwScore q adminKeywords = 0 ∧ kwScore q productivityKeywords = 0 ∧
          kwScore q profileKeywords = 0 then
        ("general_agent", 1/2)
      else if kwScore q productivityKeywords ≤ kwScore q adminKeywords ∧
          kwScore q profileKeywords ≤ kwScore q adminKeywords then
        ("admin_agent",
          confidence (kwScore q adminKeywords) (lowerStr q.toList).length)
      else if kwScore q profileKeywords ≤ kwScore q productivityKeywords then
        ("productivity_agent",
          confidence (kwScore q productivityKeywords) (lowerStr q.toList).length)
      else
        ("profile_agent",
          confidence (kwScore q profileKeywords) (lowerStr q.toList).length)) := by
  simp only [classify_intent, routes, List.map_cons, List.map_nil, pyMax,
    List.foldl_cons, List.foldl_nil]
  by_cases h1 : kwScore q adminKeywords < kwScore q productivityKeywords
  · by_cases h2 : kwScore q productivityKeywords < kwScore q profileKeywords
    · simp only [if_pos h1, if_pos h2]
      have hf : 0 < kwScore q profileKeywords := by omega
      simp only [if_pos hf]
      rw [if_neg (by omega), if_neg (by omega), if_neg (by omega)]
    · simp only [if_pos h1, if_neg h2]
      have hp : 0 < kwScore q productivityKeywords := by omega
      simp only [if_pos hp]
      rw [if_neg (by omega), if_neg (by omega), if_pos (by omega)]
  · by_cases h2 : kwScore q adminKeywords < kwScore q profileKeywords
    · simp only [if_neg h1, if_pos h2]
      have hf : 0 < kwScore q profileKeywords := by omega
      simp only [if_pos hf]
      rw [if_neg (by omega), if_neg (by omega), if_neg (by omega)]
    · simp only [if_neg h1, if_neg h2]
      by_cases h0 : 0 < kwScore q adminKeywords
      · simp only [if_pos h0]
        rw [if_neg (by omega), if_pos (by omega)]
      · simp only [if_neg h0]
        rw [if_pos (by omega)]

/-- A keyword that occurs in the lowered query contributes its length to
the score of the agent, so the score is positive. -/
theorem kwScore_pos_of_mem (q : String) (kws : List String) (kw : String)
    (hmem : kw ∈ kws) (hsub : hasSub kw.toList (lowerStr q.toList) = true)
    (hlen : 0 < kw.length) : 0 < kwScore q kws := by
  unfold kwScore
  have hmemf : kw ∈ kws.filter
      (fun kw => hasSub kw.toList (lowerStr q.toList)) :=
    List.mem_filter.mpr ⟨hmem, hsub⟩
  have hml : kw.length ∈ (kws.filter
      (fun kw => hasSub kw.toList (lowerStr q.toList))).map String.length :=
    List.mem_map_of_mem String.length hmemf
  have := List.single_le_sum (l := (kws.filter
      (fun kw => hasSub kw.toList (lowerStr q.toList))).map String.length)
    (fun x _ => Nat.zero_le x) kw.length hml
  omega

/-- C1: for every matrix state, task string and pair of booleans,
`categorize_task` returns exactly the label of the Eisenhower quadrant
determined by (urgent, important) — Q1 when urgent and important, Q2 when
important and not urgent, Q3 when urgent and not important, Q4 when
neither — that label is one of the four fixed labels, and in particular
an urgent-and-important task yields Q1. -/
theorem categorize_task_quadrants (m : EisenhowerMatrix) (task : String)
    (urgent important : Bool) :
    ((categorize_task m task urgent important).1 =
      if urgent && important then "Q1_do_first"
      else if important && !urgent then "Q2_schedule"
      else if urgent && !important then "Q3_delegate"
      else "Q4_eliminate")
    ∧ (categorize_task m task urgent important).1 ∈
        ["Q1_do_first", "Q2_schedule", "Q3_delegate", "Q4_eliminate"]
    ∧ (categorize_task m task true true).1 = "Q1_do_first" := by
  cases urgent <;> cases important <;>
    simp [categorize_task]

/-- C2 fails as stated: the query "calendar task priority" contains the
calendar keyword, yet `classify_intent` routes it to the productivity
agent, because the productivity keywords "task" and "priority" outweigh
"calendar". -/
theorem calendar_query_not_always_admin :
    hasSub "calendar".toList (lowerStr "calendar task priority".toList) = true
    ∧ (classify_intent "calendar task priority").1 = "productivity_agent"
    ∧ (classify_intent "calendar task priority").1 ≠ "admin_agent" := by
  refine ⟨by decide, by decide, by decide⟩

/-- C2 (amended): a query containing the keyword "calendar" gets a
positive admin score, so the fallback is never chosen, and whenever the
admin score is at least each of the other two scores (ties favor
the admin agent, which is first in dict order), `classify_intent` routes
to "admin_agent". -/
theorem calendar_query_routes_admin (q : String)
    (hcal : hasSub "calendar".toList (lowerStr q.toList) = true)
    (hp : kwScore q productivityKeywords ≤ kwScore q adminKeywords)
    (hf : kwScore q profileKeywords ≤ kwScore q adminKeywords) :
    (classify_intent q).1 = "admin_agent" := by
  have hpos : 0 < kwScore q adminKeywords :=
    kwScore_pos_of_mem q adminKeywords "calendar" (by decide) hcal (by decide)
  rw [classify_intent_cases]
  rw [if_neg (by omega), if_pos ⟨hp, hf⟩]

/-- C2 witness: the concrete query "calendar" satisfies the hypotheses
and is routed to the admin agent. -/
theorem calendar_query_routes_admin_witness :
    (classify_intent "calendar").1 = "admin_agent" :=
  calendar_query_routes_admin "calendar" (by decide) (by decide) (by decide)

/-- C3: the route is a function of the per-agent keyword scores alone —
each score being the sum of the lengths of the keywords of that agent that
occur as substrings of the lowercased query — with the maximal-score
agent returned when the maximum is positive (first in dict order on
ties) and ("general_agent", 0.5) returned when no keyword matches. -/
theorem classify_intent_by_scores (q : String) :
    classify_intent q =
      (if kwScore q adminKeywords = 0 ∧ kwScore q productivityKeywords = 0 ∧
          kwScore q profileKeywords = 0 then
        ("general_agent", 1/2)
      else if kwScore q productivityKeywords ≤ kwScore q adminKeywords ∧
          kwScore q profileKeywords ≤ kwScore q adminKeywords then
        ("admin_agent",
          confidence (kwScore q adminKeywords) (lowerStr q.toList).length)
      else if kwScore q profileKeywords ≤ kwScore q productivityKeywords then
        ("productivity_agent",
          confidence (kwScore q productivityKeywords) (lowerStr q.toList).length)
      else
        ("profile_agent",
          confidence (kwScore q profileKeywords) (lowerStr q.toList).length)) :=
  classify_intent_cases q

/-! ## `src/tools/gmail_tool.py` and `src/tools/calendar_tool.py` -/

/-- Result dict of `create_gmail_draft`; keys absent from a return path
are `none`. The recipient key "to" is spelled `to_` because `to` is a
reserved token in Lean. -/
structure DraftResult where
  success : Bool
  error : Option String
  draft_id : Option String
  to_ : Option String
  cc : Option (Option String)
  bcc : Option (Option String)
  subject : Option String
  body_preview : Option String
  created_at : Option String
  status : Option String
  message : Option String
deriving DecidableEq

/-- `create_gmail_draft` (gmail_tool.py lines 52–129, mock path): raises
(and catches) `ValueError` when the recipient lacks an "@", otherwise
returns the success dict echoing the inputs with a draft id synthesized
from the current timestamp. `stamp` is `datetime.now().strftime(...)` and
`nowIso` is `datetime.now().isoformat()`, both passed in explicitly;
`rcpt` is the Python parameter `to`. -/
def create_gmail_draft (stamp nowIso : String) (rcpt subject body : String)
    (cc bcc : Option String) : DraftResult :=
  if rcpt.toList.contains '@' then
    { success := true
      error := none
      draft_id := some ("draft_" ++ stamp)
      to_ := some rcpt
      cc := some cc
      bcc := some bcc
      subject := some subject
      body_preview := some (if 100 < body.length
        then body.take 100 ++ "..." else body)
      created_at := some nowIso
      status := some "draft"
      message := some "Draft created successfully. Review and send from Gmail." }
  else
    { success := false
      error := some ("Invalid email address: " ++ rcpt)
      draft_id := none, to_ := none, cc := none, bcc := none, subject := none
      body_preview := none, created_at := none, status := none, message := none }

/-- Python `start_time.replace(Z, +00:00)`: every occurrence of the
character Z is replaced by the five characters +00:00. -/
def replaceZ (s : List Char) : List Char :=
  s.foldr (fun c acc =>
    if c = 'Z' then '+' :: '0' :: '0' :: ':' :: '0' :: '0' :: acc
    else c :: acc) []

/-- Result dict of `create_calendar_event`; timestamps are modelled as
rationals (hours), so `start`/`end` carry the parsed value rather than
its re-serialized ISO string; the "end" key is spelled `end_` because
`end` is a Lean keyword. -/
structure EventResult where
  success : Bool
  error : Option String
  event_id : Option String
  title : Option String
  start : Option ℚ
  end_ : Option ℚ
  description : Option String
  location : Option String
  html_link : Option String
  reminder : Option String
  status : Option String
deriving DecidableEq

/-- `create_calendar_event` (calendar_tool.py lines 55–138, mock path):
parses the start time after the Z-replacement, computes the end time by
adding `duration_hours`, and returns the success dict echoing the inputs
with a mock event id synthesized from the current timestamp; a parse
failure (`ValueError` with message `e`) yields the error dict. -/
def create_calendar_event (parseIso : List Char → Except String ℚ)
    (stamp : String) (title start_time : String) (duration_hours : ℚ)
    (description location : String) (reminder_minutes : ℤ) : EventResult :=
  match parseIso (replaceZ start_time.toList) with
  | .ok start_dt =>
    { success := true
      error := none
      event_id := some ("mock_event_" ++ stamp)
      title := some title
      start := some start_dt
      end_ := some (start_dt + duration_hours)
      description := some description
      location := some location
      html_link := some "https://calendar.google.com/calendar/event?eid=mock123"
      reminder := some (toString reminder_minutes ++ " minutes before")
      status := some "confirmed" }
  | .error e =>
    { success := false
      error := some ("Invalid date format: " ++ e)
      event_id := none, title := none, start := none, end_ := none
      description := none, location := none, html_link := none
      reminder := none, status := none }

/-- C4: `create_gmail_draft` fails with an error message exactly when the
recipient address lacks the character "@", and succeeds (with no error
key) when the address contains it. -/
theorem create_gmail_draft_validation (stamp nowIso rcpt subject body : String)
    (cc bcc : Option String) :
    (create_gmail_draft stamp nowIso rcpt subject body cc bcc).success =
      rcpt.toList.contains '@'
    ∧ (create_gmail_draft stamp nowIso rcpt subject body cc bcc).error =
        (if rcpt.toList.contains '@' then none
         else some ("Invalid email address: " ++ rcpt)) := by
  cases h : rcpt.toList.contains '@' <;>
    · simp only [create_gmail_draft, h]
      simp

/-- C5: `create_calendar_event` fails with an error message exactly when
the start time (after replacing Z by +00:00) does not parse as an ISO
date, and succeeds (with no error key) when it parses. -/
theorem create_calendar_event_validation
    (parseIso : List Char → Except String ℚ) (stamp title start_time : String)
    (duration_hours : ℚ) (description location : String)
    (reminder_minutes : ℤ) :
    ((create_calendar_event parseIso stamp title start_time duration_hours
        description location reminder_minutes).success = true ↔
      ∃ t, parseIso (replaceZ start_time.toList) = .ok t)
    ∧ (create_calendar_event parseIso stamp title start_time duration_hours
        description location reminder_minutes).error =
        (match parseIso (replaceZ start_time.toList) with
         | .ok _ => none
         | .error e => some ("Invalid date format: " ++ e)) := by
  unfold create_calendar_event
  cases h : parseIso (replaceZ start_time.toList) <;> simp [h]

/-- C5 witness: with a concrete parser accepting exactly one string, a
well-formed start time succeeds with no error and a malformed one fails
with the error message. -/
theorem create_calendar_event_validation_witness :
    ((create_calendar_event
        (fun s => if s = "2025-12-15T10:00:00".toList then .ok 10
                  else .error "bad")
        "20251215" "DMV" "2025-12-15T10:00:00" 1 "" "" 30).success = true)
    ∧ ((create_calendar_event
        (fun s => if s = "2025-12-15T10:00:00".toList then .ok 10
                  else .error "bad")
        "20251215" "DMV" "not-a-date" 1 "" "" 30).error =
          some "Invalid date format: bad") := by
  have h1 := create_calendar_event_validation
    (fun s => if s = "2025-12-15T10:00:00".toList then .ok 10
              else .error "bad") "20251215" "DMV" "2025-12-15T10:00:00" 1 "" "" 30
  have h2 := create_calendar_event_validation
    (fun s => if s = "2025-12-15T10:00:00".toList then .ok 10
              else .error "bad") "20251215" "DMV" "not-a-date" 1 "" "" 30
  refine ⟨h1.1.mpr ⟨10, ?_⟩, ?_⟩
  · rw [if_pos (by decide)]
  · rw [h2.2, if_neg (by decide)]
    rfl

/-- C7: on success the mocked tools echo their inputs with synthesized
identifiers: the calendar event carries the given title, description and
location, its end time is the parsed start plus `duration_hours`, and its
id is "mock_event_" followed by the timestamp; the Gmail draft carries
the given recipient, cc, bcc and subject together with a "draft_" id. -/
theorem mock_tools_echo_inputs (parseIso : List Char → Except String ℚ)
    (stampE stampD nowIso : String) (title start_time : String)
    (duration_hours : ℚ) (description location : String)
    (reminder_minutes : ℤ) (t : ℚ) (rcpt subject body : String)
    (cc bcc : Option String)
    (hp : parseIso (replaceZ start_time.toList) = .ok t)
    (ha : rcpt.toList.contains '@' = true) :
    ((create_calendar_event parseIso stampE title start_time duration_hours
        description location reminder_minutes).title = some title
    ∧ (create_calendar_event parseIso stampE title start_time duration_hours
        description location reminder_minutes).description = some description
    ∧ (create_calendar_event parseIso stampE title start_time duration_hours
        description location reminder_minutes).location = some location
    ∧ (create_calendar_event parseIso stampE title start_time duration_hours
        description location reminder_minutes).end_ = some (t + duration_hours)
    ∧ (create_calendar_event parseIso stampE title start_time duration_hours
        description location reminder_minutes).event_id =
        some ("mock_event_" ++ stampE))
    ∧ ((create_gmail_draft stampD nowIso rcpt subject body cc bcc).to_ =
        some rcpt
    ∧ (create_gmail_draft stampD nowIso rcpt subject body cc bcc).cc = some cc
    ∧ (create_gmail_draft stampD nowIso rcpt subject body cc bcc).bcc = some bcc
    ∧ (create_gmail_draft stampD nowIso rcpt subject body cc bcc).subject =
        some subject
    ∧ (create_gmail_draft stampD nowIso rcpt subject body cc bcc).draft_id =
        some ("draft_" ++ stampD)) := by
  constructor
  · unfold create_calendar_event
    rw [hp]
    simp
  · simp only [create_gmail_draft, ha]
    simp

/-- C7 witness: concrete inputs echoed back by both mocked tools. -/
theorem mock_tools_echo_inputs_witness :
    ((create_calendar_event (fun _ => .ok 10) "20251215" "DMV"
        "2025-12-15T10:00:00" 1 "bring docs" "SF" 30).title = some "DMV"
    ∧ (create_calendar_event (fun _ => .ok 10) "20251215" "DMV"
        "2025-12-15T10:00:00" 1 "bring docs" "SF" 30).description =
        some "bring docs"
    ∧ (create_calendar_event (fun _ => .ok 10) "20251215" "DMV"
        "2025-12-15T10:00:00" 1 "bring docs" "SF" 30).location = some "SF"
    ∧ (create_calendar_event (fun _ => .ok 10) "20251215" "DMV"
        "2025-12-15T10:00:00" 1 "bring docs" "SF" 30).end_ = some (10 + 1)
    ∧ (create_calendar_event (fun _ => .ok 10) "20251215" "DMV"
        "2025-12-15T10:00:00" 1 "bring docs" "SF" 30).event_id =
        some ("mock_event_" ++ "20251215"))
    ∧ ((create_gmail_draft "20251215" "iso" "a@b.com" "hi" "body"
        (some "c@d.com") none).to_ = some "a@b.com"
    ∧ (create_gmail_draft "20251215" "iso" "a@b.com" "hi" "body"
        (some "c@d.com") none).cc = some (some "c@d.com")
    ∧ (create_gmail_draft "20251215" "iso" "a@b.com" "hi" "body"
        (some "c@d.com") none).bcc = some none
    ∧ (create_gmail_draft "20251215" "iso" "a@b.com" "hi" "body"
        (some "c@d.com") none).subject = some "hi"
    ∧ (create_gmail_draft "20251215" "iso" "a@b.com" "hi" "body"
        (some "c@d.com") none).draft_id = some ("draft_" ++ "20251215")) :=
  mock_tools_echo_inputs (fun _ => .ok 10) "20251215" "20251215" "iso"
    "DMV" "2025-12-15T10:00:00" 1 "bring docs" "SF" 30 10 "a@b.com" "hi"
    "body" (some "c@d.com") none rfl (by decide)

/-! ## `src/session/memory.py` -/

/-- One entry of `InMemorySession.history` — the message dict built by
`add_message`. Message metadata values are modelled as strings (the
source stores arbitrary Python values that the session never inspects). -/
structure Message where
  id : Nat
  role : String
  content : String
  timestamp : ℚ
  metadata : List (String × String)
deriving DecidableEq

/-- `InMemorySession.__init__`: the mutable fields of a session. The Python
`self.metadata` dict is flattened into the three fields it always holds
(`message_count`, `tools_used`, `agents_invoked`). Times are rationals
(minutes). -/
structure InMemorySession where
  session_id : String
  created_at : ℚ
  last_activity : ℚ
  timeout_minutes : ℚ
  history : List Message
  state : List (String × String)
  message_count : Nat
  tools_used : List String
  agents_invoked : List String
deriving DecidableEq

/-- `InMemorySession(session_id, timeout_minutes)` at creation time
`now`. -/
def initSession (now : ℚ) (sid : String) (timeout : ℚ) : InMemorySession :=
  { session_id := sid, created_at := now, last_activity := now
    timeout_minutes := timeout, history := [], state := []
    message_count := 0, tools_used := [], agents_invoked := [] }

/-- `InMemorySession.add_message` (memory.py lines 40–66): builds the
message with id `len(history) + 1`, appends it, refreshes
`last_activity`, increments `message_count`, and returns the message
(here together with the updated session). `md` is the optional
`metadata` argument; `metadata or` an empty dict is stored. -/
def add_message (now : ℚ) (role content : String)
    (md : Option (List (String × String))) (s : InMemorySession) :
    Message × InMemorySession :=
  let m : Message :=
    { id := s.history.length + 1, role := role, content := content
      timestamp := now, metadata := md.getD [] }
  (m, { s with
          history := s.history ++ [m]
          last_activity := now
          message_count := s.message_count + 1 })

/-- `InMemorySession.add_user_message`. -/
def add_user_message (now : ℚ) (content : String) (s : InMemorySession) :
    Message × InMemorySession :=
  add_message now "user" content none s

/-- `InMemorySession.add_assistant_message`: stores the (stringified)
tool-call list under the key "tool_calls". -/
def add_assistant_message (now : ℚ) (content tool_calls : String)
    (s : InMemorySession) : Message × InMemorySession :=
  add_message now "assistant" content (some [("tool_calls", tool_calls)]) s

/-- `InMemorySession.add_tool_result`: records the tool name in
`tools_used` when new, then adds a "tool" message whose content is
`str(result)`. -/
def add_tool_result (now : ℚ) (tool_name result : String)
    (s : InMemorySession) : Message × InMemorySession :=
  let s1 := if s.tools_used.contains tool_name then s
            else { s with tools_used := s.tools_used ++ [tool_name] }
  add_message now "tool" result (some [("tool_name", tool_name)]) s1

/-- Python `history[start:]` for an integer `start` (negative indices
count from the end, clamped at 0; large positive indices yield []). -/
def pySliceFrom (start : ℤ) (l : List Message) : List Message :=
  if start < 0 then l.drop ((l.length + start).toNat)
  else l.drop start.toNat

/-- `InMemorySession.get_history` (memory.py lines 82–94): `last_n` is
`None` by default; `if last_n:` is false for `None` and for 0, in which
case the whole history is returned, else `history[-last_n:]`. -/
def get_history (last_n : Option ℤ) (s : InMemorySession) : List Message :=
  match last_n with
  | some n => if n ≠ 0 then pySliceFrom (-n) s.history else s.history
  | none => s.history

/-- `InMemorySession.set_state`: writes the key and refreshes
`last_activity`. State dict updates are modelled by prepending
(lookup finds the newest binding, as in a Python dict write). -/
def set_state (now : ℚ) (k v : String) (s : InMemorySession) :
    InMemorySession :=
  { s with state := (k, v) :: s.state, last_activity := now }

/-- `InMemorySession.update_state`: `self.state.update(updates)` and
refresh `last_activity`. -/
def update_state (now : ℚ) (updates : List (String × String))
    (s : InMemorySession) : InMemorySession :=
  { s with state := updates.reverse ++ s.state, last_activity := now }

/-- `InMemorySession.clear_history`: empties the history and resets
`message_count` (keeping the rest of the session). -/
def clear_history (s : InMemorySession) : InMemorySession :=
  { s with history := [], message_count := 0 }

/-- `InMemorySession.is_expired` (memory.py lines 141–144):
`datetime.now() > last_activity + timedelta(minutes=timeout_minutes)`. -/
def is_expired (now : ℚ) (s : InMemorySession) : Bool :=
  decide (s.last_activity + s.timeout_minutes < now)

/-- `SessionManager.__init__`: the session table in insertion order. -/
structure SessionManager where
  sessions : List (String × InMemorySession)
  default_timeout : ℚ
deriving DecidableEq

/-- `SessionManager.delete_session`: removes the key when present. -/
def delete_session (sid : String) (m : SessionManager) : SessionManager :=
  { m with sessions := m.sessions.filter (fun p => p.1 != sid) }

/-- `SessionManager.get_session` (memory.py lines 189–197): returns the
stored session when it exists and is not expired; deletes it and returns
`None` when it exists but has expired; returns `None` otherwise (here
returning the possibly-updated manager alongside). -/
def get_session (now : ℚ) (sid : String) (m : SessionManager) :
    Option InMemorySession × SessionManager :=
  match m.sessions.lookup sid with
  | some s =>
    if is_expired now s = false then (some s, m)
    else (none, delete_session sid m)
  | none => (none, m)

/-- The history/metadata invariant of C9: the stored message count equals
the history length, and message ids are the consecutive integers 1..n in
insertion order. -/
def sessionInv (s : InMemorySession) : Prop :=
  s.message_count = s.history.length
  ∧ s.history.map Message.id = List.range' 1 s.history.length

/-- `add_message` preserves the history/metadata invariant. -/
theorem add_message_inv (now : ℚ) (role content : String)
    (md : Option (List (String × String))) (s : InMemorySession)
    (h : sessionInv s) : sessionInv (add_message now role content md s).2 := by
  obtain ⟨hc, hi⟩ := h
  unfold add_message sessionInv
  simp only [List.map_append, List.length_append, List.map_cons, List.map_nil,
    List.length_cons, List.length_nil]
  constructor
  · omega
  · rw [hi, List.range'_1_concat]
    simp [Nat.add_comm]

/-- C6: `is_expired` holds exactly when the clock is strictly past
`last_activity` plus the idle timeout, and `add_message`, `set_state` and
`update_state` each refresh `last_activity` to the current time — hence
after such a call at time `now` the session is expired at a later time
`t` exactly when `t` exceeds `now` plus the timeout. -/
theorem session_expiry_semantics (s : InMemorySession) (now t : ℚ)
    (role content k v : String) (md : Option (List (String × String)))
    (updates : List (String × String)) :
    (is_expired t s = true ↔ s.last_activity + s.timeout_minutes < t)
    ∧ (add_message now role content md s).2.last_activity = now
    ∧ (set_state now k v s).last_activity = now
    ∧ (update_state now updates s).last_activity = now
    ∧ (is_expired t (add_message now role content md s).2 = true ↔
        now + s.timeout_minutes < t) := by
  refine ⟨by simp [is_expired], rfl, rfl, rfl, ?_⟩
  simp [is_expired, add_message]

/-- C6 witness: a session created at time 0 with a 30-minute timeout is
expired at time 31. -/
theorem session_expiry_semantics_witness :
    is_expired 31 (initSession 0 "s" 30) = true :=
  (session_expiry_semantics (initSession 0 "s" 30) 0 31 "" "" "" "" none
    []).1.mpr (by norm_num [initSession])

/-- C8: `get_session` returns the stored session exactly when it exists
and is not expired; an expired session is removed from the table and
`none` is returned; an unknown id returns `none` and leaves the table
unchanged. -/
theorem get_session_never_expired (now : ℚ) (sid : String)
    (m : SessionManager) :
    (get_session now sid m).1 =
      (match m.sessions.lookup sid with
       | some s => if is_expired now s then none else some s
       | none => none)
    ∧ (get_session now sid m).2.sessions =
      (match m.sessions.lookup sid with
       | some s => if is_expired now s then
           m.sessions.filter (fun p => p.1 != sid) else m.sessions
       | none => m.sessions)
    ∧ (get_session now sid m).2.default_timeout = m.default_timeout := by
  unfold get_session delete_session
  cases h : m.sessions.lookup sid with
  | none => simp
  | some s =>
    cases he : is_expired now s <;> simp [he]

/-- C9: the history/metadata invariant holds for a fresh session and is
preserved by every history-touching operation: `add_message`,
`add_user_message`, `add_assistant_message`, `add_tool_result` and
`clear_history`. -/
theorem session_history_invariant (now timeout : ℚ)
    (sid role content tool_calls tool_name result : String)
    (md : Option (List (String × String))) (s : InMemorySession)
    (h : sessionInv s) :
    sessionInv (initSession now sid timeout)
    ∧ sessionInv (add_message now role content md s).2
    ∧ sessionInv (add_user_message now content s).2
    ∧ sessionInv (add_assistant_message now content tool_calls s).2
    ∧ sessionInv (add_tool_result now tool_name result s).2
    ∧ sessionInv (clear_history s) := by
  refine ⟨⟨rfl, rfl⟩, add_message_inv now role content md s h,
    add_message_inv now "user" content none s h,
    add_message_inv now "assistant" content (some [("tool_calls", tool_calls)])
      s h, ?_, ⟨rfl, rfl⟩⟩
  have hs1 : sessionInv (if s.tools_used.contains tool_name then s
      else { s with tools_used := s.tools_used ++ [tool_name] }) := by
    by_cases hc : s.tools_used.contains tool_name = true
    · rw [if_pos hc]
      exact h
    · rw [if_neg hc]
      exact h
  exact add_message_inv now "tool" result (some [("tool_name", tool_name)]) _ hs1

/-- C9 witness: the invariant holds concretely after adding a message to
a fresh session. -/
theorem session_history_invariant_witness :
    sessionInv (add_message 0 "user" "hi" none (initSession 0 "sid" 30)).2 :=
  (session_history_invariant 0 30 "sid" "user" "hi" "tc" "tool" "res" none
    (initSession 0 "sid" 30) ⟨rfl, rfl⟩).2.1

/-- C10: `get_history` with a positive `last_n` returns the suffix of the
last `min last_n (length of history)` messages; with `last_n = 0` it
returns the entire history (0 means "no limit", not "no messages"), and
with `last_n` omitted (`None`) it returns the entire history. -/
theorem get_history_last_n (s : InMemorySession) (n : ℤ) (h : 0 < n) :
    get_history (some n) s = s.history.drop (s.history.length - n.toNat)
    ∧ (get_history (some n) s).length = min n.toNat s.history.length
    ∧ get_history (some 0) s = s.history
    ∧ get_history none s = s.history := by
  have hne : n ≠ 0 := by omega
  have h1 : get_history (some n) s =
      s.history.drop (s.history.length - n.toNat) := by
    show (if n ≠ 0 then pySliceFrom (-n) s.history else s.history) = _
    rw [if_pos hne]
    unfold pySliceFrom
    rw [if_pos (by omega : -n < 0)]
    congr 1
    omega
  refine ⟨h1, ?_, by simp [get_history], rfl⟩
  rw [h1, List.length_drop]
  omega

/-- A concrete one-message session for the C10 witness. -/
def witSession : InMemorySession :=
  (add_message 1 "user" "a" none (initSession 0 "x" 30)).2

/-- C10 witness: on a concrete one-message session, `last_n = 1` returns
the one-element suffix, and 0 / `None` return the whole history. -/
theorem get_history_last_n_witness :
    get_history (some 1) witSession =
      witSession.history.drop (witSession.history.length - (1 : ℤ).toNat)
    ∧ (get_history (some 1) witSession).length =
        min (1 : ℤ).toNat witSession.history.length
    ∧ get_history (some 0) witSession = witSession.history
    ∧ get_history none witSession = witSession.history :=
  get_history_last_n witSession 1 (by norm_num)
